import Mathlib

/-!
Shallow embedding of the hiring-pipeline dashboard `src/app.py` and proofs
about its synchronization/mutation layer: the score engine
(`calculate_applicant_score`), the backoff-retry executor (`retry_api_call`),
the worksheet resolver (`get_or_create_worksheet`), the tabular loader
(`load_applicants_data`) and the mutation engine (`update_applicant_scores`,
`move_applicant_to_denied`, `move_applicant_to_hired`, `reinstate_applicant`).

Python scalar values are modelled by `PyVal` (strings, rationals standing for
Python numbers, `None`, `NaN`); slider/score dictionaries by association lists
over `Rating`; remote worksheets by a header row plus data rows of strings.
Remote-call failures are injected through explicit behavior records, and each
operation returns, besides the new worksheet states, the sequence of remote
calls it issued, per-primitive invocation counts and the retry sleeps, so that
ordering, retry and failure-handling claims can be stated directly.
-/

/-- Python scalar values as they occur in loaded rows: `None`, float `NaN`,
strings, and numbers (modelled exactly as rationals). -/
inductive PyVal where
  | null
  | nan
  | str (s : String)
  | num (q : ℚ)
  deriving DecidableEq

/-- `pd.isna` on a scalar: true exactly for `None` and `NaN`. -/
def PyVal.isna : PyVal → Bool
  | .null => true
  | .nan => true
  | .str _ => false
  | .num _ => false

/-- Python `str(...)` on a scalar. Numeric formatting is modelled as the plain
integer/rational rendering; the claims below only inspect string cells and the
empty-string substitutions, never a float's exact rendering. -/
def pyStr : PyVal → String
  | .null => "None"
  | .nan => "nan"
  | .str s => s
  | .num q => if q.den = 1 then toString q.num else toString q.num ++ "/" ++ toString q.den

/-- A value of a rating mapping (skill name ↦ optional number): `None`,
float `NaN`, or a number. -/
inductive Rating where
  | null
  | nan
  | num (q : ℚ)
  deriving DecidableEq

/-- Python truthiness of a rating value: `None` is falsy, `NaN` is truthy,
a number is truthy iff nonzero. -/
def Rating.truthy : Rating → Bool
  | .null => false
  | .nan => true
  | .num q => decide (q ≠ 0)

/-- `pd.isna` on a rating value. -/
def Rating.isna : Rating → Bool
  | .null => true
  | .nan => true
  | .num _ => false

/-- Python `float(...)` on a rating value, total on the values that pass the
truthy-and-not-na test (always numbers); 0 elsewhere. -/
def Rating.toFloat : Rating → ℚ
  | .num q => q
  | _ => 0

/-- The seven skill columns, `SKILL_COLUMNS` in app.py. -/
def SKILL_COLUMNS : List String :=
  ["Throwing Skill", "Strength Skill", "Data Skill",
   "Aptitude", "Professionalism", "Culture Fit", "Trust"]

/-- The canonical header row written when a worksheet is created, and the
canonical columns of an empty loaded table. -/
def canonicalColumns : List String :=
  ["name", "date of application", "date of birth"] ++ SKILL_COLUMNS ++ ["Applicant Score"]

/-- `row_data.get(skill, 0)`: dictionary lookup with default `0`. -/
def dictGetR (d : List (String × Rating)) (k : String) : Rating :=
  (d.lookup k).getD (.num 0)

/-- Python `round(x, 2)`: round half to even at two decimal places, in exact
rational arithmetic. -/
def pyRound2 (q : ℚ) : ℚ :=
  let x : ℚ := q * 100
  let f : ℤ := ⌊x⌋
  let n : ℤ :=
    if x - f < 1 / 2 then f
    else if (1 : ℚ) / 2 < x - f then f + 1
    else if f % 2 = 0 then f else f + 1
  (n : ℚ) / 100

/-- The `scores` list built by the loop in `calculate_applicant_score`: for
each skill column, the dictionary value (default 0) is kept iff it is truthy
and not na. -/
def collectSkillScores (row_data : List (String × Rating)) : List ℚ :=
  SKILL_COLUMNS.filterMap fun skill =>
    let score := dictGetR row_data skill
    if score.truthy && !score.isna then some score.toFloat else none

/-- `calculate_applicant_score` from app.py: the rounded mean of the collected
scores, `0.0` when none were collected. -/
def calculate_applicant_score (row_data : List (String × Rating)) : ℚ :=
  let scores := collectSkillScores row_data
  if scores.isEmpty then 0 else pyRound2 (scores.sum / scores.length)

/-- The present values of a rating mapping as claim C1 words it: the skill
values that are non-null and non-NaN, a value of 0 still counting as present. -/
def presentValuesClaimC1 (R : List (String × Rating)) : List ℚ :=
  SKILL_COLUMNS.filterMap fun skill =>
    match R.lookup skill with
    | some (.num q) => some q
    | _ => none

/-- The score function as claim C1 words it: the mean of `presentValuesClaimC1`
rounded to 2 decimal places, `0.0` when no values are present. -/
def scoreClaimC1 (R : List (String × Rating)) : ℚ :=
  let vs := presentValuesClaimC1 R
  if vs.isEmpty then 0 else pyRound2 (vs.sum / vs.length)

/-- The present values as amended: non-null, non-NaN AND truthy — a value of 0
is treated as absent. -/
def presentValuesAmendedC1 (R : List (String × Rating)) : List ℚ :=
  SKILL_COLUMNS.filterMap fun skill =>
    match R.lookup skill with
    | some (.num q) => if q = 0 then none else some q
    | _ => none

/-- The concrete rating mapping refuting C1: a rating of 0 together with a
rating of 6. -/
def ratingMapC1 : List (String × Rating) :=
  [("Throwing Skill", .num 0), ("Strength Skill", .num 6)]

/-- C1 counterexample: on the mapping with ratings 0 and 6, the code's score is
6.00 (the 0 rating is dropped by the truthiness test), while the claimed score
(0 counts as present) would be the mean of 0 and 6, namely 3.00. -/
theorem calculate_applicant_score_zero_not_present :
    calculate_applicant_score ratingMapC1 ≠ scoreClaimC1 ratingMapC1 := by
  have h1 : calculate_applicant_score ratingMapC1 = 6 := by
    have h : collectSkillScores ratingMapC1 = [6] := by
      simp [collectSkillScores, ratingMapC1, SKILL_COLUMNS, dictGetR,
        Rating.truthy, Rating.isna, Rating.toFloat, List.lookup]
    simp only [calculate_applicant_score, h]
    norm_num [pyRound2]
  have h2 : scoreClaimC1 ratingMapC1 = 3 := by
    have h : presentValuesClaimC1 ratingMapC1 = [0, 6] := by
      simp [presentValuesClaimC1, ratingMapC1, SKILL_COLUMNS, List.lookup]
    simp only [scoreClaimC1, h]
    norm_num [pyRound2]
  rw [h1, h2]
  norm_num

/-- C1 amended: for every rating mapping, `calculate_applicant_score` returns
the arithmetic mean, rounded to 2 decimal places, of exactly those skill values
that are present in the stricter sense non-null, non-NaN AND nonzero (a value
of 0 is treated as absent), and returns 0.0 when no such values are present. -/
theorem calculate_applicant_score_amended (R : List (String × Rating)) :
    calculate_applicant_score R =
      if (presentValuesAmendedC1 R).isEmpty then 0
      else pyRound2 ((presentValuesAmendedC1 R).sum / (presentValuesAmendedC1 R).length) := by
  have h : collectSkillScores R = presentValuesAmendedC1 R := by
    unfold collectSkillScores presentValuesAmendedC1
    apply List.filterMap_congr
    intro skill _
    cases hl : R.lookup skill with
    | none => simp [dictGetR, hl, Rating.truthy]
    | some r =>
      cases r with
      | null => simp [dictGetR, hl, Rating.truthy]
      | nan => simp [dictGetR, hl, Rating.truthy, Rating.isna]
      | num q =>
        by_cases hq : q = 0
        · simp [dictGetR, hl, hq, Rating.truthy]
        · simp [dictGetR, hl, hq, Rating.truthy, Rating.isna, Rating.toFloat]
  simp only [calculate_applicant_score, h]

/-- A Python exception, identified by its message text `str(e)`. -/
inductive PyErr where
  | mk (msg : String)
  deriving DecidableEq

/-- The message of an exception. -/
def PyErr.msg : PyErr → String
  | .mk m => m

/-- ASCII lowercasing of one character, modelling `str.lower()`. -/
def lowerChar (c : Char) : Char :=
  if 'A' ≤ c && c ≤ 'Z' then Char.ofNat (c.toNat + 32) else c

/-- Lowercasing of a character list. -/
def toLowerL (l : List Char) : List Char := l.map lowerChar

/-- Whether `pat` occurs as a contiguous substring, modelling Python `in` on
strings. -/
def hasSub (pat : List Char) : List Char → Bool
  | [] => pat.isEmpty
  | c :: t => pat.isPrefixOf (c :: t) || hasSub pat t

/-- The transient rate-limit signature test of `retry_api_call`:
case-insensitive occurrence of "quota exceeded", "429" or "rate limit" in the
error text. -/
def isRateLimitErr (m : String) : Bool :=
  hasSub "quota exceeded".data (toLowerL m.data) ||
  hasSub "429".data (toLowerL m.data) ||
  hasSub "rate limit".data (toLowerL m.data)

/-- The terminal outcome of `retry_api_call`: the wrapped call's return value,
the `None` returned on rate-limit exhaustion, or a re-raised exception. -/
inductive RetryResult (V : Type) where
  | value (v : V)
  | exhausted
  | raised (e : PyErr)
  deriving DecidableEq

/-- Full observable behavior of one `retry_api_call` run: terminal result, how
many times the wrapped operation was invoked, and the list of back-off sleeps
in order. -/
structure RetryOutcome (V : Type) where
  result : RetryResult V
  calls : Nat
  sleeps : List ℚ
  deriving DecidableEq

/-- One iteration of the retry loop body of `retry_api_call`: run `func()`
(behavior `f attempt`); on success return its value; on a rate-limit error,
either give up (no attempts remain, `r = 0`) or sleep
`base_delay * 2 ^ attempt + jitter attempt` and continue with the outcome
`rest` of the remaining iterations; on any other error re-raise it. -/
def retryStep {V : Type} (f : Nat → Except PyErr V) (jitter : Nat → ℚ)
    (base_delay : ℚ) (attempt r : Nat) (rest : RetryOutcome V) : RetryOutcome V :=
  match f attempt with
  | .ok v => ⟨.value v, 1, []⟩
  | .error e =>
    if isRateLimitErr e.msg then
      match r with
      | 0 => ⟨.exhausted, 1, []⟩
      | _ + 1 =>
        ⟨rest.result, rest.calls + 1,
          (base_delay * 2 ^ attempt + jitter attempt) :: rest.sleeps⟩
    else ⟨.raised e, 1, []⟩

/-- The retry loop of `retry_api_call` from iteration `attempt` on, with
`remaining` iterations left. The wrapped operation `f` is given per-invocation
behavior (`f i` is what the body `func()` does on loop iteration `i`), and
`jitter i` is the value drawn by `random.uniform(0, 1)` on iteration `i`.
When no iterations remain the loop falls through to `return None`. -/
def retryFrom {V : Type} (f : Nat → Except PyErr V) (jitter : Nat → ℚ)
    (base_delay : ℚ) (attempt : Nat) : Nat → RetryOutcome V
  | 0 => ⟨.exhausted, 0, []⟩
  | r + 1 =>
    retryStep f jitter base_delay attempt r
      (retryFrom f jitter base_delay (attempt + 1) r)

/-- `retry_api_call(func, max_retries, base_delay)` from app.py. -/
def retry_api_call {V : Type} (f : Nat → Except PyErr V) (jitter : Nat → ℚ)
    (max_retries : Nat) (base_delay : ℚ) : RetryOutcome V :=
  retryFrom f jitter base_delay 0 max_retries

/-- Unfolding equation for `retryFrom` on a positive iteration count. -/
theorem retryFrom_succ {V : Type} (f : Nat → Except PyErr V) (jitter : Nat → ℚ)
    (base_delay : ℚ) (attempt r : Nat) :
    retryFrom f jitter base_delay attempt (r + 1) =
      retryStep f jitter base_delay attempt r
        (retryFrom f jitter base_delay (attempt + 1) r) := rfl

/-- When every invocation fails with a rate-limit signature, the loop runs all
its iterations: one invocation per iteration and one back-off sleep of
`base_delay * 2 ^ attempt + jitter attempt` between consecutive iterations. -/
theorem retryFrom_all_rate_limited {V : Type} (f : Nat → Except PyErr V)
    (jitter : Nat → ℚ) (base_delay : ℚ)
    (hf : ∀ i, ∃ e, f i = .error e ∧ isRateLimitErr e.msg = true) :
    ∀ r a, retryFrom f jitter base_delay a (r + 1) =
      ⟨.exhausted, r + 1,
        (List.range' a r).map fun k => base_delay * 2 ^ k + jitter k⟩ := by
  intro r
  induction r with
  | zero =>
    intro a
    obtain ⟨e, he, hrl⟩ := hf a
    rw [retryFrom_succ]
    unfold retryStep
    rw [he]
    simp [hrl]
  | succ r' ih =>
    intro a
    obtain ⟨e, he, hrl⟩ := hf a
    rw [retryFrom_succ]
    unfold retryStep
    rw [he]
    simp only [hrl, if_true, ih (a + 1), List.range'_succ, List.map_cons]

/-- C3: for an operation whose every invocation raises a rate-limit error, the
retry executor (defaults: `max_retries = 3`, `base_delay = 1`) invokes it
exactly 3 times, sleeps `base_delay * 2 ^ attempt + jitter attempt` between
consecutive attempts with the jitter drawn from [0, 1), returns the
rate-limited sentinel instead of raising, and the total sleep is at least 3
seconds. -/
theorem retry_rate_limit_exhaustion {V : Type} (f : Nat → Except PyErr V)
    (jitter : Nat → ℚ)
    (hf : ∀ i, ∃ e, f i = .error e ∧ isRateLimitErr e.msg = true)
    (hj : ∀ i, 0 ≤ jitter i ∧ jitter i < 1) :
    (retry_api_call f jitter 3 1).calls = 3 ∧
    (retry_api_call f jitter 3 1).result = .exhausted ∧
    (retry_api_call f jitter 3 1).sleeps =
      [1 * 2 ^ 0 + jitter 0, 1 * 2 ^ 1 + jitter 1] ∧
    3 ≤ (retry_api_call f jitter 3 1).sleeps.sum := by
  have h3 : (3 : Nat) = 2 + 1 := rfl
  have h := retryFrom_all_rate_limited f jitter 1 hf 2 0
  rw [retry_api_call, h3, h]
  refine ⟨rfl, rfl, rfl, ?_⟩
  show (3 : ℚ) ≤ (List.map (fun k => 1 * 2 ^ k + jitter k) (List.range' 0 2)).sum
  have hr : List.range' 0 2 = [0, 1] := rfl
  rw [hr]
  simp only [List.map_cons, List.map_nil, List.sum_cons, List.sum_nil]
  have hj0 := (hj 0).1
  have hj1 := (hj 1).1
  norm_num
  linarith

/-- The always-rate-limited operation used to witness C3. -/
def fRateLimitC3 : Nat → Except PyErr Unit :=
  fun _ => .error (.mk "Quota exceeded: 429")

/-- The zero jitter draw used to witness C3. -/
def jitterZeroC3 : Nat → ℚ := fun _ => 0

/-- C3 witness: the exhaustion theorem applied to a concrete always-rate-limited
operation with zero jitter. -/
theorem retry_rate_limit_exhaustion_witness :
    (retry_api_call fRateLimitC3 jitterZeroC3 3 1).calls = 3 ∧
    (retry_api_call fRateLimitC3 jitterZeroC3 3 1).result = .exhausted ∧
    (retry_api_call fRateLimitC3 jitterZeroC3 3 1).sleeps =
      [1 * 2 ^ 0 + jitterZeroC3 0, 1 * 2 ^ 1 + jitterZeroC3 1] ∧
    3 ≤ (retry_api_call fRateLimitC3 jitterZeroC3 3 1).sleeps.sum :=
  retry_rate_limit_exhaustion fRateLimitC3 jitterZeroC3
    (fun _ => ⟨.mk "Quota exceeded: 429", rfl, by decide⟩)
    (fun _ => by norm_num [jitterZeroC3])

/-- C6: for an operation whose first invocation raises an error that does not
match the rate-limit signature, the retry executor invokes it exactly once,
performs no sleep, and re-raises the original error unchanged. -/
theorem retry_non_transient_single_invocation {V : Type}
    (f : Nat → Except PyErr V) (jitter : Nat → ℚ) (max_retries : Nat)
    (base_delay : ℚ) (e : PyErr) (hm : 0 < max_retries)
    (hf : f 0 = .error e) (hrl : isRateLimitErr e.msg = false) :
    retry_api_call f jitter max_retries base_delay = ⟨.raised e, 1, []⟩ := by
  obtain ⟨r, rfl⟩ : ∃ r, max_retries = r + 1 := ⟨max_retries - 1, by omega⟩
  rw [retry_api_call, retryFrom_succ]
  unfold retryStep
  rw [hf]
  simp [hrl]

/-- The operation raising a non-transient error, used to witness C6. -/
def fPermDeniedC6 : Nat → Except PyErr Unit :=
  fun _ => .error (.mk "permission denied")

/-- C6 witness: the single-invocation theorem applied to a concrete operation
that raises "permission denied". -/
theorem retry_non_transient_single_invocation_witness :
    retry_api_call fPermDeniedC6 jitterZeroC3 3 1 =
      ⟨.raised (.mk "permission denied"), 1, []⟩ :=
  retry_non_transient_single_invocation fPermDeniedC6 jitterZeroC3 3 1
    (.mk "permission denied") (by norm_num) rfl (by decide)

/-- A remote worksheet: its header row (`row_values(1)`) and its data rows,
each a list of cell strings. -/
structure Worksheet where
  header : List String
  dataRows : List (List String)
  deriving DecidableEq

/-- A spreadsheet: its worksheets, keyed by title in order of creation. -/
structure Spreadsheet where
  sheets : List (String × Worksheet)
  deriving DecidableEq

/-- The observable outcome of `get_or_create_worksheet`: the returned
worksheet, the spreadsheet afterwards, and whether an `add_worksheet` plus
header `append_row` pair was issued. -/
structure ResolveOutcome where
  ws : Worksheet
  sheet : Spreadsheet
  created : Bool
  deriving DecidableEq

/-- `get_or_create_worksheet` from app.py: return the existing worksheet if the
title resolves, otherwise add a fresh worksheet and append the canonical
header row to it. -/
def get_or_create_worksheet (s : Spreadsheet) (worksheet_name : String) :
    ResolveOutcome :=
  match s.sheets.lookup worksheet_name with
  | some ws => ⟨ws, s, false⟩
  | none =>
    let ws : Worksheet := ⟨canonicalColumns, []⟩
    ⟨ws, ⟨s.sheets ++ [(worksheet_name, ws)]⟩, true⟩

/-- C9: the worksheet resolver is idempotent on existing names: both a first
and a second call return the existing worksheet unchanged, leave the
spreadsheet unchanged, never take the create-and-write-header branch, and the
number of worksheets with that name stays the same. -/
theorem get_or_create_worksheet_idempotent (s : Spreadsheet)
    (worksheet_name : String) (ws : Worksheet)
    (h : s.sheets.lookup worksheet_name = some ws) :
    get_or_create_worksheet s worksheet_name = ⟨ws, s, false⟩ ∧
    get_or_create_worksheet
        (get_or_create_worksheet s worksheet_name).sheet worksheet_name =
      ⟨ws, s, false⟩ ∧
    ((get_or_create_worksheet s worksheet_name).sheet.sheets.countP
        fun p => p.1 == worksheet_name) =
      s.sheets.countP fun p => p.1 == worksheet_name := by
  have h1 : get_or_create_worksheet s worksheet_name = ⟨ws, s, false⟩ := by
    rw [get_or_create_worksheet, h]
  exact ⟨h1, by rw [h1, get_or_create_worksheet, h], by rw [h1]⟩

/-- The spreadsheet used to witness C9: the denied worksheet already exists. -/
def sheetC9 : Spreadsheet :=
  ⟨[("Denied Applicants", ⟨canonicalColumns, [["Alice"]]⟩)]⟩

/-- C9 witness: the idempotence theorem applied to a spreadsheet that already
contains the "Denied Applicants" worksheet. -/
theorem get_or_create_worksheet_idempotent_witness :
    get_or_create_worksheet sheetC9 "Denied Applicants" =
      ⟨⟨canonicalColumns, [["Alice"]]⟩, sheetC9, false⟩ ∧
    get_or_create_worksheet
        (get_or_create_worksheet sheetC9 "Denied Applicants").sheet
        "Denied Applicants" =
      ⟨⟨canonicalColumns, [["Alice"]]⟩, sheetC9, false⟩ ∧
    ((get_or_create_worksheet sheetC9 "Denied Applicants").sheet.sheets.countP
        fun p => p.1 == "Denied Applicants") =
      sheetC9.sheets.countP fun p => p.1 == "Denied Applicants" :=
  get_or_create_worksheet_idempotent sheetC9 "Denied Applicants"
    ⟨canonicalColumns, [["Alice"]]⟩ rfl

/-- One remote call issued against the spreadsheet store, in issue order. -/
inductive RemoteEvent where
  | readHeaderCall
  | appendRowCall (vals : List String)
  | deleteRowsCall (sheetRow : Nat)
  | batchUpdateCall
  deriving DecidableEq

/-- The user-visible terminal status of a mutation operation: the `st.success`
message name, the dedicated rate-limit `st.error` after retry exhaustion, or
the generic `except` branch reporting the caught exception. -/
inductive OpResult where
  | success (nm : String)
  | rateLimitedErr
  | caughtErr (e : PyErr)
  deriving DecidableEq

/-- The row-to-list conversion shared by the three stage transitions: for each
header cell of the given header row, `row_data.get(header, '')`, with the empty
string substituted for null/NaN, then `str(...)`. -/
def buildRowValues (headers : List String) (row_data : List (String × PyVal)) :
    List String :=
  headers.map fun header =>
    let value := (row_data.lookup header).getD (.str "")
    if value.isna then "" else pyStr value

/-- `delete_rows(sheetRow)` on a worksheet, for the 1-based sheet row numbers
`row_index + 2` the mutation engine always passes (row 1 is the header, so data
row `sheetRow - 2` is removed). -/
def deleteSheetRow (ws : Worksheet) (sheetRow : Nat) : Worksheet :=
  ⟨ws.header, ws.dataRows.eraseIdx (sheetRow - 2)⟩

/-- Failure injection for one stage transition: whether the source-header read,
the destination append, and the source delete raise, and with what error. -/
structure TransBehavior where
  readHeaderErr : Option PyErr
  appendErr : Option PyErr
  deleteErr : Option PyErr
  deriving DecidableEq

/-- The observable outcome of one stage transition: the source and destination
worksheets afterwards, the remote calls issued in order, how often the append
primitive was invoked, and the terminal status. -/
structure TransOutcome where
  source : Worksheet
  dest : Worksheet
  events : List RemoteEvent
  appendCalls : Nat
  result : OpResult
  deriving DecidableEq

/-- The common body of `move_applicant_to_denied`, `move_applicant_to_hired`
and `reinstate_applicant`: take the in-memory row `df.iloc[row_index]`, read
the SOURCE worksheet's header row, build the value list in that header order,
append it to the destination, then delete the source sheet row
`row_index + 2`; any raise lands in the generic `except` branch, leaving later
steps unexecuted. -/
def transitionCore (src dst : Worksheet) (df : List (List (String × PyVal)))
    (row_index : Nat) (b : TransBehavior) : TransOutcome :=
  match df.get? row_index with
  | none =>
    ⟨src, dst, [], 0, .caughtErr (.mk "IndexError: single positional indexer is out-of-bounds")⟩
  | some row_data =>
    match b.readHeaderErr with
    | some e => ⟨src, dst, [.readHeaderCall], 0, .caughtErr e⟩
    | none =>
      let headers := src.header
      let row_values := buildRowValues headers row_data
      match b.appendErr with
      | some e =>
        ⟨src, dst, [.readHeaderCall, .appendRowCall row_values], 1, .caughtErr e⟩
      | none =>
        let dst1 : Worksheet := ⟨dst.header, dst.dataRows ++ [row_values]⟩
        match b.deleteErr with
        | some e =>
          ⟨src, dst1,
            [.readHeaderCall, .appendRowCall row_values, .deleteRowsCall (row_index + 2)],
            1, .caughtErr e⟩
        | none =>
          let src1 := deleteSheetRow src (row_index + 2)
          let res : OpResult :=
            match row_data.lookup "name" with
            | some v => .success (pyStr v)
            | none => .caughtErr (.mk "KeyError: name")
          ⟨src1, dst1,
            [.readHeaderCall, .appendRowCall row_values, .deleteRowsCall (row_index + 2)],
            1, res⟩

/-- `move_applicant_to_denied(main_worksheet, denied_worksheet, df, row_index)`:
source is the main worksheet, destination the denied worksheet. -/
def move_applicant_to_denied (main_worksheet denied_worksheet : Worksheet)
    (df : List (List (String × PyVal))) (row_index : Nat) (b : TransBehavior) :
    TransOutcome :=
  transitionCore main_worksheet denied_worksheet df row_index b

/-- `move_applicant_to_hired(main_worksheet, hired_worksheet, df, row_index)`:
source is the main worksheet, destination the hired worksheet. -/
def move_applicant_to_hired (main_worksheet hired_worksheet : Worksheet)
    (df : List (List (String × PyVal))) (row_index : Nat) (b : TransBehavior) :
    TransOutcome :=
  transitionCore main_worksheet hired_worksheet df row_index b

/-- `reinstate_applicant(main_worksheet, denied_worksheet, df, row_index)`:
source is the denied worksheet (its header is read and its row deleted),
destination the main worksheet. -/
def reinstate_applicant (main_worksheet denied_worksheet : Worksheet)
    (df : List (List (String × PyVal))) (row_index : Nat) (b : TransBehavior) :
    TransOutcome :=
  transitionCore denied_worksheet main_worksheet df row_index b

/-- The appended cell for one header name, as the spec's row mapping describes
it: the row's value under that header, with the empty string substituted when
the header is absent from the row or its value is null/NaN. -/
def specCellValue (row_data : List (String × PyVal)) (header : String) : String :=
  match row_data.lookup header with
  | none => ""
  | some v => if v.isna then "" else pyStr v

/-- The source worksheet refuting C2, with header order colA, colB. -/
def srcC2 : Worksheet := ⟨["colA", "colB"], [["x", "y"]]⟩

/-- The destination worksheet refuting C2, with the opposite header order. -/
def dstC2 : Worksheet := ⟨["colB", "colA"], []⟩

/-- The in-memory row refuting C2. -/
def rowC2 : List (String × PyVal) :=
  [("colA", .str "x"), ("colB", .str "y"), ("name", .str "Alice")]

/-- The failure-free transition behavior. -/
def okTransB : TransBehavior := ⟨none, none, none⟩

/-- C2 counterexample: with source header [colA, colB] and destination header
[colB, colA], a deny transition appends the row ordered by the SOURCE header
([x, y]), not by the destination's own header row ([y, x]) as claimed. -/
theorem transition_dest_header_counterexample :
    (move_applicant_to_denied srcC2 dstC2 [rowC2] 0 okTransB).dest.dataRows
      = [["x", "y"]] ∧
    buildRowValues dstC2.header rowC2 = ["y", "x"] ∧
    (move_applicant_to_denied srcC2 dstC2 [rowC2] 0 okTransB).dest.dataRows
      ≠ [buildRowValues dstC2.header rowC2] := by
  refine ⟨by decide, by decide, by decide⟩

/-- C2 amended: in every stage transition (deny, hire, reinstate) whose header
read and append succeed, the appended row's values are ordered according to the
SOURCE worksheet's own header row, looked up by column name, with the empty
string substituted for any source header absent from the in-memory row and for
any null/NaN value. -/
theorem transition_appends_source_ordered_row (src dst : Worksheet)
    (df : List (List (String × PyVal))) (row_index : Nat)
    (row_data : List (String × PyVal)) (b : TransBehavior)
    (hdf : df.get? row_index = some row_data)
    (hr : b.readHeaderErr = none) (ha : b.appendErr = none) :
    (move_applicant_to_denied src dst df row_index b).dest.dataRows
      = dst.dataRows ++ [src.header.map (specCellValue row_data)] ∧
    (move_applicant_to_hired src dst df row_index b).dest.dataRows
      = dst.dataRows ++ [src.header.map (specCellValue row_data)] ∧
    (reinstate_applicant dst src df row_index b).dest.dataRows
      = dst.dataRows ++ [src.header.map (specCellValue row_data)] := by
  have hbuild : buildRowValues src.header row_data
      = src.header.map (specCellValue row_data) := by
    unfold buildRowValues
    apply List.map_congr_left
    intro header _
    cases hl : row_data.lookup header with
    | none => simp [specCellValue, hl, PyVal.isna, pyStr]
    | some v => simp [specCellValue, hl]
  have hdf2 : df[row_index]? = some row_data := by
    simpa using hdf
  have hmain : (transitionCore src dst df row_index b).dest.dataRows
      = dst.dataRows ++ [src.header.map (specCellValue row_data)] := by
    cases hd : b.deleteErr with
    | none =>
      cases hn : row_data.lookup "name" with
      | none => simp [transitionCore, hdf2, hr, ha, hd, hn, hbuild]
      | some v => simp [transitionCore, hdf2, hr, ha, hd, hn, hbuild]
    | some e => simp [transitionCore, hdf2, hr, ha, hd, hbuild]
  exact ⟨hmain, hmain, hmain⟩

/-- C2 witness: the amended theorem applied to the concrete worksheets of the
counterexample. -/
theorem transition_appends_source_ordered_row_witness :
    (move_applicant_to_denied srcC2 dstC2 [rowC2] 0 okTransB).dest.dataRows
      = dstC2.dataRows ++ [srcC2.header.map (specCellValue rowC2)] ∧
    (move_applicant_to_hired srcC2 dstC2 [rowC2] 0 okTransB).dest.dataRows
      = dstC2.dataRows ++ [srcC2.header.map (specCellValue rowC2)] ∧
    (reinstate_applicant dstC2 srcC2 [rowC2] 0 okTransB).dest.dataRows
      = dstC2.dataRows ++ [srcC2.header.map (specCellValue rowC2)] :=
  transition_appends_source_ordered_row srcC2 dstC2 [rowC2] 0 rowC2 okTransB
    rfl rfl rfl

/-- Scan of an event list checking that no delete call is issued before an
append call has been issued (accumulator: an append has been seen). -/
def deletesAfterAppendAux : Bool → List RemoteEvent → Bool
  | _, [] => true
  | seen, .deleteRowsCall _ :: t => seen && deletesAfterAppendAux seen t
  | _, .appendRowCall _ :: t => deletesAfterAppendAux true t
  | seen, _ :: t => deletesAfterAppendAux seen t

/-- Every delete call in the event list is issued only after an append call
has been issued. -/
def deleteOnlyAfterAppend (evs : List RemoteEvent) : Bool :=
  deletesAfterAppendAux false evs

/-- C4: in every stage transition (deny, hire, reinstate), under every failure
behavior, a delete of the source row is issued only after the append call to
the destination has returned; and whenever the append call fails, the source
worksheet is unchanged and no row is added to the destination worksheet. -/
theorem transition_delete_after_append (src dst : Worksheet)
    (df : List (List (String × PyVal))) (row_index : Nat) (b : TransBehavior) :
    (deleteOnlyAfterAppend
        (move_applicant_to_denied src dst df row_index b).events = true ∧
      (∀ e, b.appendErr = some e →
        (move_applicant_to_denied src dst df row_index b).source = src ∧
        (move_applicant_to_denied src dst df row_index b).dest = dst)) ∧
    (deleteOnlyAfterAppend
        (move_applicant_to_hired src dst df row_index b).events = true ∧
      (∀ e, b.appendErr = some e →
        (move_applicant_to_hired src dst df row_index b).source = src ∧
        (move_applicant_to_hired src dst df row_index b).dest = dst)) ∧
    (deleteOnlyAfterAppend
        (reinstate_applicant dst src df row_index b).events = true ∧
      (∀ e, b.appendErr = some e →
        (reinstate_applicant dst src df row_index b).source = src ∧
        (reinstate_applicant dst src df row_index b).dest = dst)) := by
  have key : deleteOnlyAfterAppend
      (transitionCore src dst df row_index b).events = true ∧
      (∀ e, b.appendErr = some e →
        (transitionCore src dst df row_index b).source = src ∧
        (transitionCore src dst df row_index b).dest = dst) := by
    cases hdf : df[row_index]? with
    | none =>
      refine ⟨?_, fun e he => ?_⟩ <;>
        simp [transitionCore, hdf, deleteOnlyAfterAppend, deletesAfterAppendAux]
    | some row_data =>
      cases hre : b.readHeaderErr with
      | some e0 =>
        refine ⟨?_, fun e he => ?_⟩ <;>
          simp [transitionCore, hdf, hre, deleteOnlyAfterAppend, deletesAfterAppendAux]
      | none =>
        cases hae : b.appendErr with
        | some e0 =>
          refine ⟨?_, fun e he => ?_⟩
          · simp [transitionCore, hdf, hre, hae, deleteOnlyAfterAppend,
              deletesAfterAppendAux]
          · simp [transitionCore, hdf, hre, hae]
        | none =>
          cases hde : b.deleteErr with
          | some e0 =>
            refine ⟨?_, fun e he => ?_⟩
            · simp [transitionCore, hdf, hre, hae, hde, deleteOnlyAfterAppend,
                deletesAfterAppendAux]
            · exact absurd he (by simp)
          | none =>
            refine ⟨?_, fun e he => ?_⟩
            · cases hn : row_data.lookup "name" <;>
                simp [transitionCore, hdf, hre, hae, hde, hn,
                  deleteOnlyAfterAppend, deletesAfterAppendAux]
            · exact absurd he (by simp)
  exact ⟨key, key, key⟩

/-- The behavior whose append raises a rate-limit error, used for C4 and C5. -/
def failAppendB : TransBehavior :=
  ⟨none, some (.mk "429 rate limit exceeded"), none⟩

/-- C4 witness: the ordering-and-atomicity theorem applied to a concrete deny
transition whose append fails; the source and destination are unchanged. -/
theorem transition_delete_after_append_witness :
    deleteOnlyAfterAppend
      (move_applicant_to_denied srcC2 dstC2 [rowC2] 0 failAppendB).events = true ∧
    (move_applicant_to_denied srcC2 dstC2 [rowC2] 0 failAppendB).source = srcC2 ∧
    (move_applicant_to_denied srcC2 dstC2 [rowC2] 0 failAppendB).dest = dstC2 :=
  ⟨(transition_delete_after_append srcC2 dstC2 [rowC2] 0 failAppendB).1.1,
   (transition_delete_after_append srcC2 dstC2 [rowC2] 0 failAppendB).1.2
     (.mk "429 rate limit exceeded") rfl⟩

/-- One cell of the batched update: the column letter `chr(64 + col_index)`,
the 1-based sheet row of the range string, and the written value. -/
structure CellUpdate where
  col : Char
  row : Nat
  value : Rating
  deriving DecidableEq

/-- `chr(64 + col_index)`. -/
def chrCol (col_index : Nat) : Char :=
  Char.ofNat (64 + col_index)

/-- Failure injection for `update_applicant_scores`: whether the header read
raises, what the `i`-th invocation of `batch_update` does, and the jitter
draws of the retry executor. -/
structure UpdateBehavior where
  readHeaderErr : Option PyErr
  batchErr : Nat → Option PyErr
  jitter : Nat → ℚ

/-- The observable outcome of `update_applicant_scores`: the batch that was
built, the remote calls issued in order (each `batch_update` invocation made
by the retry executor counted separately), the number of `batch_update`
invocations, the retry sleeps, and the terminal status. -/
structure UpdateOutcome where
  updates : List CellUpdate
  events : List RemoteEvent
  batchCalls : Nat
  sleeps : List ℚ
  result : OpResult

/-- The `updates` batch built by `update_applicant_scores`: one cell per rated
skill found in the current header row, at `chr(64 + col_index)` and sheet row
`row_index + 2`, plus the derived Applicant Score cell when that column is in
the header. -/
def buildUpdates (worksheet : Worksheet) (row_index : Nat)
    (scores : List (String × Rating)) : List CellUpdate :=
  (scores.filterMap fun p =>
    if p.1 ∈ worksheet.header then
      some ⟨chrCol (worksheet.header.indexOf p.1 + 1), row_index + 2, p.2⟩
    else none) ++
  (if "Applicant Score" ∈ worksheet.header then
    [⟨chrCol (worksheet.header.indexOf "Applicant Score" + 1), row_index + 2,
      .num (calculate_applicant_score scores)⟩]
  else [])

/-- `update_applicant_scores(worksheet, df, row_index, scores)` from app.py:
compute the aggregate score, read the header row, build one batched update for
the rated skills found in the header plus the Applicant Score cell, all
addressed at sheet row `row_index + 2`; if the batch is nonempty run it through
`retry_api_call`; report success (naming `df.iloc[row_index]['name']`), the
dedicated rate-limit error on a `None` retry result, or the generic caught
error. -/
def update_applicant_scores (worksheet : Worksheet)
    (df : List (List (String × PyVal))) (row_index : Nat)
    (scores : List (String × Rating)) (b : UpdateBehavior) : UpdateOutcome :=
  match b.readHeaderErr with
  | some e => ⟨[], [.readHeaderCall], 0, [], .caughtErr e⟩
  | none =>
    let updates := buildUpdates worksheet row_index scores
    let nameRes : OpResult :=
      match (df.get? row_index).bind (fun row => row.lookup "name") with
      | some v => .success (pyStr v)
      | none => .caughtErr (.mk "KeyError: name")
    if updates.isEmpty then
      ⟨updates, [.readHeaderCall], 0, [], nameRes⟩
    else
      let r := retry_api_call
        (fun i => match b.batchErr i with
          | some e => (.error e : Except PyErr Unit)
          | none => .ok ()) b.jitter 3 1
      match r.result with
      | .exhausted =>
        ⟨updates, .readHeaderCall :: List.replicate r.calls .batchUpdateCall,
          r.calls, r.sleeps, .rateLimitedErr⟩
      | .raised e =>
        ⟨updates, .readHeaderCall :: List.replicate r.calls .batchUpdateCall,
          r.calls, r.sleeps, .caughtErr e⟩
      | .value _ =>
        ⟨updates, .readHeaderCall :: List.replicate r.calls .batchUpdateCall,
          r.calls, r.sleeps, nameRes⟩

/-- A list extended on the right by one element is never empty. -/
theorem isEmpty_append_singleton {A : Type} (l : List A) (x : A) :
    (l ++ [x]).isEmpty = false := by
  cases l <;> rfl

/-- Under persistent rate limiting of `batch_update`, a score update whose
header contains the Applicant Score column invokes the batched write 3 times
and reports the dedicated rate-limit error. -/
theorem update_scores_rate_limited_helper (worksheet : Worksheet)
    (df : List (List (String × PyVal))) (row_index : Nat)
    (scores : List (String × Rating)) (jitter : Nat → ℚ) (e : PyErr)
    (hrl : isRateLimitErr e.msg = true)
    (hcol : "Applicant Score" ∈ worksheet.header) :
    (update_applicant_scores worksheet df row_index scores
      ⟨none, fun _ => some e, jitter⟩).batchCalls = 3 ∧
    (update_applicant_scores worksheet df row_index scores
      ⟨none, fun _ => some e, jitter⟩).result = .rateLimitedErr := by
  have hretry : retry_api_call
      (fun i => match (fun _ => some e : Nat → Option PyErr) i with
        | some e' => (.error e' : Except PyErr Unit)
        | none => .ok ()) jitter 3 1 =
      ⟨.exhausted, 3,
        (List.range' 0 2).map fun k => 1 * 2 ^ k + jitter k⟩ := by
    have h3 : (3 : Nat) = 2 + 1 := rfl
    rw [retry_api_call, h3]
    exact retryFrom_all_rate_limited _ jitter 1 (fun i => ⟨e, rfl, hrl⟩) 2 0
  simp only [update_applicant_scores, buildUpdates, hretry, hcol, if_true,
    isEmpty_append_singleton, Bool.false_eq_true, if_false]
  constructor <;> trivial

/-- A worksheet carrying the canonical header row. -/
def wsCanonical : Worksheet := ⟨canonicalColumns, []⟩

/-- The rate-limit error used against the C5 claim. -/
def rlErrC5 : PyErr := .mk "429 rate limit exceeded"

/-- C5 counterexample: none of the deny transition's remote calls is wrapped in
the retry executor: a rate-limit error raised by the header read, by the append
(which is invoked exactly once), or by the delete lands in the generic except
branch on its first occurrence — the event trace shows a single issuance of the
failing call and no retry. -/
theorem transition_append_not_retried_counterexample :
    isRateLimitErr rlErrC5.msg = true ∧
    (move_applicant_to_denied srcC2 dstC2 [rowC2] 0 ⟨some rlErrC5, none, none⟩).events
      = [.readHeaderCall] ∧
    (move_applicant_to_denied srcC2 dstC2 [rowC2] 0 ⟨some rlErrC5, none, none⟩).result
      = .caughtErr rlErrC5 ∧
    (move_applicant_to_denied srcC2 dstC2 [rowC2] 0 failAppendB).appendCalls = 1 ∧
    (move_applicant_to_denied srcC2 dstC2 [rowC2] 0 failAppendB).events
      = [.readHeaderCall, .appendRowCall ["x", "y"]] ∧
    (move_applicant_to_denied srcC2 dstC2 [rowC2] 0 failAppendB).result
      = .caughtErr rlErrC5 ∧
    (move_applicant_to_denied srcC2 dstC2 [rowC2] 0 ⟨none, none, some rlErrC5⟩).events
      = [.readHeaderCall, .appendRowCall ["x", "y"], .deleteRowsCall 2] ∧
    (move_applicant_to_denied srcC2 dstC2 [rowC2] 0 ⟨none, none, some rlErrC5⟩).result
      = .caughtErr rlErrC5 := by
  refine ⟨by decide, by decide, by decide, by decide, by decide, by decide,
    by decide, by decide⟩

/-- C5 amended: only the batched score write of update scores runs through the
retry executor (on persistent rate limiting it is invoked 3 times and reported
as rate-limited); every other remote call of the four compound operations —
the header read, append and delete of deny, hire and reinstate, and the header
read of update scores — is invoked directly and exactly once, and a rate-limit
error there is reported through the generic except branch on its first
occurrence instead of being retried. -/
theorem mutation_retry_wrapping_amended (src dst worksheet : Worksheet)
    (df : List (List (String × PyVal))) (row_index : Nat)
    (row_data : List (String × PyVal)) (scores : List (String × Rating))
    (jitter : Nat → ℚ) (e : PyErr)
    (hdf : df[row_index]? = some row_data)
    (hrl : isRateLimitErr e.msg = true)
    (hcol : "Applicant Score" ∈ worksheet.header) :
    (move_applicant_to_denied src dst df row_index ⟨some e, none, none⟩
        = ⟨src, dst, [.readHeaderCall], 0, .caughtErr e⟩ ∧
      move_applicant_to_denied src dst df row_index ⟨none, some e, none⟩
        = ⟨src, dst,
            [.readHeaderCall, .appendRowCall (buildRowValues src.header row_data)],
            1, .caughtErr e⟩ ∧
      move_applicant_to_denied src dst df row_index ⟨none, none, some e⟩
        = ⟨src, ⟨dst.header, dst.dataRows ++ [buildRowValues src.header row_data]⟩,
            [.readHeaderCall, .appendRowCall (buildRowValues src.header row_data),
              .deleteRowsCall (row_index + 2)], 1, .caughtErr e⟩) ∧
    (move_applicant_to_hired src dst df row_index ⟨some e, none, none⟩
        = ⟨src, dst, [.readHeaderCall], 0, .caughtErr e⟩ ∧
      move_applicant_to_hired src dst df row_index ⟨none, some e, none⟩
        = ⟨src, dst,
            [.readHeaderCall, .appendRowCall (buildRowValues src.header row_data)],
            1, .caughtErr e⟩ ∧
      move_applicant_to_hired src dst df row_index ⟨none, none, some e⟩
        = ⟨src, ⟨dst.header, dst.dataRows ++ [buildRowValues src.header row_data]⟩,
            [.readHeaderCall, .appendRowCall (buildRowValues src.header row_data),
              .deleteRowsCall (row_index + 2)], 1, .caughtErr e⟩) ∧
    (reinstate_applicant dst src df row_index ⟨some e, none, none⟩
        = ⟨src, dst, [.readHeaderCall], 0, .caughtErr e⟩ ∧
      reinstate_applicant dst src df row_index ⟨none, some e, none⟩
        = ⟨src, dst,
            [.readHeaderCall, .appendRowCall (buildRowValues src.header row_data)],
            1, .caughtErr e⟩ ∧
      reinstate_applicant dst src df row_index ⟨none, none, some e⟩
        = ⟨src, ⟨dst.header, dst.dataRows ++ [buildRowValues src.header row_data]⟩,
            [.readHeaderCall, .appendRowCall (buildRowValues src.header row_data),
              .deleteRowsCall (row_index + 2)], 1, .caughtErr e⟩) ∧
    (update_applicant_scores worksheet df row_index scores
        ⟨some e, fun _ => none, jitter⟩
        = ⟨[], [.readHeaderCall], 0, [], .caughtErr e⟩ ∧
      (update_applicant_scores worksheet df row_index scores
        ⟨none, fun _ => some e, jitter⟩).batchCalls = 3 ∧
      (update_applicant_scores worksheet df row_index scores
        ⟨none, fun _ => some e, jitter⟩).result = .rateLimitedErr) := by
  have keyRead : transitionCore src dst df row_index ⟨some e, none, none⟩ =
      ⟨src, dst, [.readHeaderCall], 0, .caughtErr e⟩ := by
    simp [transitionCore, hdf]
  have keyAppend : transitionCore src dst df row_index ⟨none, some e, none⟩ =
      ⟨src, dst,
        [.readHeaderCall, .appendRowCall (buildRowValues src.header row_data)],
        1, .caughtErr e⟩ := by
    simp [transitionCore, hdf]
  have keyDelete : transitionCore src dst df row_index ⟨none, none, some e⟩ =
      ⟨src, ⟨dst.header, dst.dataRows ++ [buildRowValues src.header row_data]⟩,
        [.readHeaderCall, .appendRowCall (buildRowValues src.header row_data),
          .deleteRowsCall (row_index + 2)], 1, .caughtErr e⟩ := by
    simp [transitionCore, hdf]
  have hupRead : update_applicant_scores worksheet df row_index scores
      ⟨some e, fun _ => none, jitter⟩
      = ⟨[], [.readHeaderCall], 0, [], .caughtErr e⟩ := rfl
  have hup := update_scores_rate_limited_helper worksheet df row_index scores
    jitter e hrl hcol
  exact ⟨⟨by rw [move_applicant_to_denied, keyRead],
      by rw [move_applicant_to_denied, keyAppend],
      by rw [move_applicant_to_denied, keyDelete]⟩,
    ⟨by rw [move_applicant_to_hired, keyRead],
      by rw [move_applicant_to_hired, keyAppend],
      by rw [move_applicant_to_hired, keyDelete]⟩,
    ⟨by rw [reinstate_applicant, keyRead],
      by rw [reinstate_applicant, keyAppend],
      by rw [reinstate_applicant, keyDelete]⟩,
    hupRead, hup.1, hup.2⟩

/-- C5 witness: the amended wrapping theorem applied to concrete transitions
and a concrete score update, each remote call rate-limited in turn. -/
theorem mutation_retry_wrapping_amended_witness :
    (move_applicant_to_denied srcC2 dstC2 [rowC2] 0 ⟨some rlErrC5, none, none⟩
        = ⟨srcC2, dstC2, [.readHeaderCall], 0, .caughtErr rlErrC5⟩ ∧
      move_applicant_to_denied srcC2 dstC2 [rowC2] 0 ⟨none, some rlErrC5, none⟩
        = ⟨srcC2, dstC2,
            [.readHeaderCall, .appendRowCall (buildRowValues srcC2.header rowC2)],
            1, .caughtErr rlErrC5⟩ ∧
      move_applicant_to_denied srcC2 dstC2 [rowC2] 0 ⟨none, none, some rlErrC5⟩
        = ⟨srcC2, ⟨dstC2.header, dstC2.dataRows ++ [buildRowValues srcC2.header rowC2]⟩,
            [.readHeaderCall, .appendRowCall (buildRowValues srcC2.header rowC2),
              .deleteRowsCall (0 + 2)], 1, .caughtErr rlErrC5⟩) ∧
    (move_applicant_to_hired srcC2 dstC2 [rowC2] 0 ⟨some rlErrC5, none, none⟩
        = ⟨srcC2, dstC2, [.readHeaderCall], 0, .caughtErr rlErrC5⟩ ∧
      move_applicant_to_hired srcC2 dstC2 [rowC2] 0 ⟨none, some rlErrC5, none⟩
        = ⟨srcC2, dstC2,
            [.readHeaderCall, .appendRowCall (buildRowValues srcC2.header rowC2)],
            1, .caughtErr rlErrC5⟩ ∧
      move_applicant_to_hired srcC2 dstC2 [rowC2] 0 ⟨none, none, some rlErrC5⟩
        = ⟨srcC2, ⟨dstC2.header, dstC2.dataRows ++ [buildRowValues srcC2.header rowC2]⟩,
            [.readHeaderCall, .appendRowCall (buildRowValues srcC2.header rowC2),
              .deleteRowsCall (0 + 2)], 1, .caughtErr rlErrC5⟩) ∧
    (reinstate_applicant dstC2 srcC2 [rowC2] 0 ⟨some rlErrC5, none, none⟩
        = ⟨srcC2, dstC2, [.readHeaderCall], 0, .caughtErr rlErrC5⟩ ∧
      reinstate_applicant dstC2 srcC2 [rowC2] 0 ⟨none, some rlErrC5, none⟩
        = ⟨srcC2, dstC2,
            [.readHeaderCall, .appendRowCall (buildRowValues srcC2.header rowC2)],
            1, .caughtErr rlErrC5⟩ ∧
      reinstate_applicant dstC2 srcC2 [rowC2] 0 ⟨none, none, some rlErrC5⟩
        = ⟨srcC2, ⟨dstC2.header, dstC2.dataRows ++ [buildRowValues srcC2.header rowC2]⟩,
            [.readHeaderCall, .appendRowCall (buildRowValues srcC2.header rowC2),
              .deleteRowsCall (0 + 2)], 1, .caughtErr rlErrC5⟩) ∧
    (update_applicant_scores wsCanonical [rowC2] 0 [("Throwing Skill", .num 5)]
        ⟨some rlErrC5, fun _ => none, jitterZeroC3⟩
        = ⟨[], [.readHeaderCall], 0, [], .caughtErr rlErrC5⟩ ∧
      (update_applicant_scores wsCanonical [rowC2] 0 [("Throwing Skill", .num 5)]
        ⟨none, fun _ => some rlErrC5, jitterZeroC3⟩).batchCalls = 3 ∧
      (update_applicant_scores wsCanonical [rowC2] 0 [("Throwing Skill", .num 5)]
        ⟨none, fun _ => some rlErrC5, jitterZeroC3⟩).result = .rateLimitedErr) :=
  mutation_retry_wrapping_amended srcC2 dstC2 wsCanonical [rowC2] 0 rowC2
    [("Throwing Skill", .num 5)] jitterZeroC3 rlErrC5 rfl (by decide) (by decide)

/-- The failure-free update behavior with zero jitter. -/
def okUpdateB : UpdateBehavior := ⟨none, fun _ => none, jitterZeroC3⟩

/-- C7 counterexample: when no header column matches any rated skill or the
Applicant Score column, update scores still issues one remote call — the
header read `row_values(1)` — before reporting success, so "performs no remote
call at all" fails. -/
theorem update_scores_header_read_counterexample :
    (update_applicant_scores ⟨["foo"], []⟩ [rowC2] 0
        [("Throwing Skill", .num 5)] okUpdateB).updates = [] ∧
    (update_applicant_scores ⟨["foo"], []⟩ [rowC2] 0
        [("Throwing Skill", .num 5)] okUpdateB).events = [.readHeaderCall] ∧
    (update_applicant_scores ⟨["foo"], []⟩ [rowC2] 0
        [("Throwing Skill", .num 5)] okUpdateB).events ≠ [] ∧
    (update_applicant_scores ⟨["foo"], []⟩ [rowC2] 0
        [("Throwing Skill", .num 5)] okUpdateB).result = .success "Alice" := by
  refine ⟨by decide, by decide, by decide, by decide⟩

/-- C7 amended: with no injected failures, update scores invokes the batched
remote write at most once, every cell in the batch is addressed at sheet row
`row_index + 2`, and when no header column matches a rated skill or the
Applicant Score column it performs no remote write — the only remote call is
the header read — and reports success. -/
theorem update_scores_single_batched_write (worksheet : Worksheet)
    (df : List (List (String × PyVal))) (row_index : Nat)
    (scores : List (String × Rating)) (jitter : Nat → ℚ) (v : PyVal)
    (hname : (df.get? row_index).bind (fun row => row.lookup "name") = some v) :
    (update_applicant_scores worksheet df row_index scores
      ⟨none, fun _ => none, jitter⟩).batchCalls ≤ 1 ∧
    (∀ u ∈ (update_applicant_scores worksheet df row_index scores
      ⟨none, fun _ => none, jitter⟩).updates, u.row = row_index + 2) ∧
    ((∀ p ∈ scores, p.1 ∉ worksheet.header) →
      "Applicant Score" ∉ worksheet.header →
      (update_applicant_scores worksheet df row_index scores
        ⟨none, fun _ => none, jitter⟩).batchCalls = 0 ∧
      (update_applicant_scores worksheet df row_index scores
        ⟨none, fun _ => none, jitter⟩).events = [.readHeaderCall] ∧
      (update_applicant_scores worksheet df row_index scores
        ⟨none, fun _ => none, jitter⟩).result = .success (pyStr v)) := by
  have hrows : ∀ u ∈ buildUpdates worksheet row_index scores, u.row = row_index + 2 := by
    intro u hu
    unfold buildUpdates at hu
    rcases List.mem_append.1 hu with h | h
    · obtain ⟨p, _, hpq⟩ := List.mem_filterMap.1 h
      by_cases hmem : p.1 ∈ worksheet.header
      · rw [if_pos hmem] at hpq
        cases hpq
        rfl
      · rw [if_neg hmem] at hpq
        cases hpq
    · by_cases hAS : "Applicant Score" ∈ worksheet.header
      · rw [if_pos hAS] at h
        rcases List.mem_singleton.1 h with rfl
        rfl
      · rw [if_neg hAS] at h
        cases h
  have hretryOk : retry_api_call
      (fun i => match (fun _ => (none : Option PyErr)) i with
        | some e => (.error e : Except PyErr Unit)
        | none => .ok ()) jitter 3 1 = ⟨.value (), 1, []⟩ := rfl
  by_cases hE : (buildUpdates worksheet row_index scores).isEmpty = true
  · have ho : update_applicant_scores worksheet df row_index scores
        ⟨none, fun _ => none, jitter⟩ =
        ⟨buildUpdates worksheet row_index scores, [.readHeaderCall], 0, [],
          .success (pyStr v)⟩ := by
      simp only [update_applicant_scores, hE, if_true, hname]
    rw [ho]
    exact ⟨by norm_num, hrows, fun _ _ => ⟨rfl, rfl, rfl⟩⟩
  · have hE2 : (buildUpdates worksheet row_index scores).isEmpty = false := by
      simpa using hE
    have ho : update_applicant_scores worksheet df row_index scores
        ⟨none, fun _ => none, jitter⟩ =
        ⟨buildUpdates worksheet row_index scores,
          [.readHeaderCall, .batchUpdateCall], 1, [], .success (pyStr v)⟩ := by
      simp only [update_applicant_scores, hE2, Bool.false_eq_true, if_false,
        hretryOk, hname]
      rfl
    rw [ho]
    refine ⟨by norm_num, hrows, fun hsk hAS => ?_⟩
    exfalso
    have hnil : buildUpdates worksheet row_index scores = [] := by
      unfold buildUpdates
      rw [if_neg hAS]
      have hfm : (scores.filterMap fun p =>
          if p.1 ∈ worksheet.header then
            some (⟨chrCol (worksheet.header.indexOf p.1 + 1), row_index + 2, p.2⟩ : CellUpdate)
          else none) = [] := by
        rw [List.filterMap_eq_nil_iff]
        intro p hp
        rw [if_neg (hsk p hp)]
      rw [hfm]
      rfl
    rw [hnil] at hE2
    simp at hE2

/-- C7 witness: the single-batched-write theorem applied to a worksheet whose
header matches no skill and no Applicant Score column. -/
theorem update_scores_single_batched_write_witness :
    (update_applicant_scores ⟨["foo"], []⟩ [rowC2] 0
      [("Throwing Skill", .num 5)] ⟨none, fun _ => none, jitterZeroC3⟩).batchCalls ≤ 1 ∧
    (∀ u ∈ (update_applicant_scores ⟨["foo"], []⟩ [rowC2] 0
      [("Throwing Skill", .num 5)] ⟨none, fun _ => none, jitterZeroC3⟩).updates,
      u.row = 0 + 2) ∧
    ((∀ p ∈ [(("Throwing Skill" : String), Rating.num 5)],
        p.1 ∉ (⟨["foo"], []⟩ : Worksheet).header) →
      "Applicant Score" ∉ (⟨["foo"], []⟩ : Worksheet).header →
      (update_applicant_scores ⟨["foo"], []⟩ [rowC2] 0
        [("Throwing Skill", .num 5)] ⟨none, fun _ => none, jitterZeroC3⟩).batchCalls = 0 ∧
      (update_applicant_scores ⟨["foo"], []⟩ [rowC2] 0
        [("Throwing Skill", .num 5)] ⟨none, fun _ => none, jitterZeroC3⟩).events
        = [.readHeaderCall] ∧
      (update_applicant_scores ⟨["foo"], []⟩ [rowC2] 0
        [("Throwing Skill", .num 5)] ⟨none, fun _ => none, jitterZeroC3⟩).result
        = .success (pyStr (.str "Alice"))) :=
  update_scores_single_batched_write ⟨["foo"], []⟩ [rowC2] 0
    [("Throwing Skill", .num 5)] jitterZeroC3 (.str "Alice") (by decide)

/-- A loaded table: column names and rows of scalar cells. -/
structure DataFrame where
  cols : List String
  rows : List (List PyVal)
  deriving DecidableEq

/-- Whether a character is an ASCII digit. -/
def isDigitCh (c : Char) : Bool := '0' ≤ c && c ≤ '9'

/-- The natural number denoted by a digit list. -/
def natOfDigits (l : List Char) : Nat :=
  l.foldl (fun a c => a * 10 + (c.toNat - 48)) 0

/-- Numeric-string parsing for the `pd.to_numeric` model: an optional sign
followed by one or more digits (fractional literals are not needed by any
claim; everything else coerces to NaN). -/
def parseNum (s : String) : Option ℚ :=
  match s.data with
  | [] => none
  | '-' :: t => if t ≠ [] && t.all isDigitCh then some (-(natOfDigits t : ℚ)) else none
  | l => if l.all isDigitCh then some (natOfDigits l : ℚ) else none

/-- `pd.to_numeric(column, errors='coerce')` on one cell: numbers stay, all
malformed values (including None) become NaN. -/
def toNumericCell : PyVal → PyVal
  | .num q => .num q
  | .str s =>
    match parseNum s with
    | some q => .num q
    | none => .nan
  | _ => .nan

/-- Whether a character list is an ISO `yyyy-mm-dd` date literal. -/
def isIsoDate : List Char → Bool
  | [y1, y2, y3, y4, '-', m1, m2, '-', d1, d2] =>
    [y1, y2, y3, y4, m1, m2, d1, d2].all isDigitCh
  | _ => false

/-- `pd.to_datetime(column, errors='coerce')` on one cell, modelled for the
date strings this sheet holds: an ISO date string is kept as the parsed date,
every malformed value becomes NaT (modelled as NaN). -/
def toDatetimeCell : PyVal → PyVal
  | .str s => if isIsoDate s.data then .str s else .nan
  | _ => .nan

/-- Column names of `pd.DataFrame(records)`: keys in order of first
appearance. -/
def dfColumnsOfRecords (records : List (List (String × PyVal))) : List String :=
  records.foldl (fun acc row => acc ++ (row.map (·.1)).filter (fun k => !acc.contains k)) []

/-- Apply a cell coercion to one named column of a table, when present. -/
def mapColumn (df : DataFrame) (colName : String) (f : PyVal → PyVal) : DataFrame :=
  if colName ∈ df.cols then
    ⟨df.cols, df.rows.map fun row =>
      row.mapIdx fun i c => if i = df.cols.indexOf colName then f c else c⟩
  else df

/-- `load_applicants_data(worksheet)` from app.py: fetch `get_all_records`
through the retry executor; a `None` retry result or a caught exception yields
the bare empty table; an empty record list yields the empty table with the
canonical columns; otherwise build the table from the records and coerce the
two date columns and the numeric columns. -/
def load_applicants_data
    (recB : Nat → Except PyErr (List (List (String × PyVal))))
    (jitter : Nat → ℚ) : DataFrame :=
  match (retry_api_call recB jitter 3 1).result with
  | .exhausted => ⟨[], []⟩
  | .raised _ => ⟨[], []⟩
  | .value [] => ⟨canonicalColumns, []⟩
  | .value records =>
    let cols := dfColumnsOfRecords records
    let df0 : DataFrame :=
      ⟨cols, records.map fun rec => cols.map fun c => (rec.lookup c).getD .nan⟩
    let df1 := ["date of application", "date of birth"].foldl
      (fun d c => mapColumn d c toDatetimeCell) df0
    (SKILL_COLUMNS ++ ["Applicant Score"]).foldl
      (fun d c => mapColumn d c toNumericCell) df1

/-- C8: the loader never surfaces a raise: on retry exhaustion (every fetch
rate-limited) it returns the bare empty table; when the fetch raises a
non-transient error, the exception is caught and the bare empty table is
returned; and when the worksheet has zero data rows it returns an empty table
whose columns are exactly the canonical column set. -/
theorem load_applicants_data_total
    (recB : Nat → Except PyErr (List (List (String × PyVal))))
    (recRL recErr : Nat → Except PyErr (List (List (String × PyVal))))
    (jitter : Nat → ℚ) (e : PyErr)
    (hRL : ∀ i, ∃ e0, recRL i = .error e0 ∧ isRateLimitErr e0.msg = true)
    (herr : recErr 0 = .error e) (hnt : isRateLimitErr e.msg = false)
    (hempty : recB 0 = .ok []) :
    load_applicants_data recRL jitter = ⟨[], []⟩ ∧
    load_applicants_data recErr jitter = ⟨[], []⟩ ∧
    load_applicants_data recB jitter = ⟨canonicalColumns, []⟩ ∧
    canonicalColumns = ["name", "date of application", "date of birth",
      "Throwing Skill", "Strength Skill", "Data Skill", "Aptitude",
      "Professionalism", "Culture Fit", "Trust", "Applicant Score"] := by
  refine ⟨?_, ?_, ?_, rfl⟩
  · have h3 : (3 : Nat) = 2 + 1 := rfl
    have h := retryFrom_all_rate_limited recRL jitter 1 hRL 2 0
    rw [load_applicants_data, retry_api_call, h3, h]
  · have h : retry_api_call recErr jitter 3 1 = ⟨.raised e, 1, []⟩ := by
      have h3 : (3 : Nat) = 2 + 1 := rfl
      rw [retry_api_call, h3, retryFrom_succ]
      unfold retryStep
      rw [herr]
      simp [hnt]
    rw [load_applicants_data, h]
  · have h : retry_api_call recB jitter 3 1 = ⟨.value [], 1, []⟩ := by
      have h3 : (3 : Nat) = 2 + 1 := rfl
      rw [retry_api_call, h3, retryFrom_succ]
      unfold retryStep
      rw [hempty]
    rw [load_applicants_data, h]

/-- An always-rate-limited fetch of records, for the C8 witness. -/
def recRLC8 : Nat → Except PyErr (List (List (String × PyVal))) :=
  fun _ => .error (.mk "429")

/-- A fetch failing with a non-transient error, for the C8 witness. -/
def recErrC8 : Nat → Except PyErr (List (List (String × PyVal))) :=
  fun _ => .error (.mk "permission denied")

/-- A fetch of a worksheet with zero data rows, for the C8 witness. -/
def recEmptyC8 : Nat → Except PyErr (List (List (String × PyVal))) :=
  fun _ => .ok []

/-- C8 witness: the loader-totality theorem applied to concrete rate-limited,
non-transient and zero-row fetch behaviors. -/
theorem load_applicants_data_total_witness :
    load_applicants_data recRLC8 jitterZeroC3 = ⟨[], []⟩ ∧
    load_applicants_data recErrC8 jitterZeroC3 = ⟨[], []⟩ ∧
    load_applicants_data recEmptyC8 jitterZeroC3 = ⟨canonicalColumns, []⟩ ∧
    canonicalColumns = ["name", "date of application", "date of birth",
      "Throwing Skill", "Strength Skill", "Data Skill", "Aptitude",
      "Professionalism", "Culture Fit", "Trust", "Applicant Score"] :=
  load_applicants_data_total recEmptyC8 recRLC8 recErrC8 jitterZeroC3
    (.mk "permission denied") (fun _ => ⟨.mk "429", rfl, by decide⟩) rfl
    (by decide) rfl

/-- The value a caller of `retry_api_call` observes when the executor returns:
the wrapped operation's own return value on success, and the `None` sentinel on
rate-limit exhaustion. A re-raised exception never returns a value to the
caller; that case is mapped to `none` only to keep the function total and is
not used by the theorems. -/
def observedValue {α : Type} : RetryResult (Option α) → Option α
  | .value v => v
  | .exhausted => none
  | .raised _ => none

/-- C10: when the wrapped operation succeeds on attempt `k` (after `k`
rate-limited attempts), the executor returns that attempt's result value; a
successful result value of `None` is therefore indistinguishable at the
interface from rate-limit exhaustion; and the two callers treat a `None`
result as failure: the loader returns the bare empty table and update scores
reports the rate-limit error. -/
theorem retry_none_sentinel_ambiguity (α : Type)
    (f : Nat → Except PyErr (Option α)) (jitter : Nat → ℚ) (k : Nat)
    (v : Option α) (e : PyErr) (hk : k < 3)
    (hpre : ∀ i, i < k → ∃ e0, f i = .error e0 ∧ isRateLimitErr e0.msg = true)
    (hsucc : f k = .ok v) (hrl : isRateLimitErr e.msg = true) :
    (retry_api_call f jitter 3 1).result = .value v ∧
    observedValue (retry_api_call f jitter 3 1).result = v ∧
    observedValue (retry_api_call
      (fun _ => (.error e : Except PyErr (Option α))) jitter 3 1).result = none ∧
    (v = none → observedValue (retry_api_call f jitter 3 1).result =
      observedValue (retry_api_call
        (fun _ => (.error e : Except PyErr (Option α))) jitter 3 1).result) ∧
    load_applicants_data (fun _ => .error e) jitter = ⟨[], []⟩ ∧
    (update_applicant_scores wsCanonical [rowC2] 0 [("Throwing Skill", .num 5)]
      ⟨none, fun _ => some e, jitter⟩).result = .rateLimitedErr := by
  have hEx : (retry_api_call
      (fun _ => (.error e : Except PyErr (Option α))) jitter 3 1).result
      = .exhausted := by
    have h3 : (3 : Nat) = 2 + 1 := rfl
    rw [retry_api_call, h3,
      retryFrom_all_rate_limited _ jitter 1 (fun i => ⟨e, rfl, hrl⟩) 2 0]
  have hVal : (retry_api_call f jitter 3 1).result = .value v := by
    rw [retry_api_call]
    interval_cases k
    · rw [show (3 : Nat) = 2 + 1 from rfl, retryFrom_succ]
      unfold retryStep
      rw [hsucc]
    · obtain ⟨e0, he0, hrl0⟩ := hpre 0 (by norm_num)
      have hinner : retryFrom f jitter 1 1 2 = ⟨.value v, 1, []⟩ := by
        rw [show (2 : Nat) = 1 + 1 from rfl, retryFrom_succ]
        unfold retryStep
        rw [hsucc]
      rw [show (3 : Nat) = 2 + 1 from rfl, retryFrom_succ]
      unfold retryStep
      rw [he0]
      simp only [hrl0, if_true, hinner]
    · obtain ⟨e0, he0, hrl0⟩ := hpre 0 (by norm_num)
      obtain ⟨e1, he1, hrl1⟩ := hpre 1 (by norm_num)
      have hinner2 : retryFrom f jitter 1 2 1 = ⟨.value v, 1, []⟩ := by
        rw [show (1 : Nat) = 0 + 1 from rfl, retryFrom_succ]
        unfold retryStep
        rw [hsucc]
      have hinner1 : (retryFrom f jitter 1 1 2).result = .value v := by
        rw [show (2 : Nat) = 1 + 1 from rfl, retryFrom_succ]
        unfold retryStep
        rw [he1]
        simp only [hrl1, if_true, hinner2]
      rw [show (3 : Nat) = 2 + 1 from rfl, retryFrom_succ]
      unfold retryStep
      rw [he0]
      simp only [hrl0, if_true, hinner1]
  have hload : load_applicants_data
      (fun _ => (.error e : Except PyErr (List (List (String × PyVal)))))
      jitter = ⟨[], []⟩ := by
    have h3 : (3 : Nat) = 2 + 1 := rfl
    rw [load_applicants_data, retry_api_call, h3,
      retryFrom_all_rate_limited _ jitter 1 (fun i => ⟨e, rfl, hrl⟩) 2 0]
  refine ⟨hVal, by rw [hVal]; rfl, by rw [hEx]; rfl, fun hv => ?_, hload,
    (update_scores_rate_limited_helper wsCanonical [rowC2] 0
      [("Throwing Skill", .num 5)] jitter e hrl (by decide)).2⟩
  rw [hVal, hEx, hv]
  rfl

/-- An operation that is rate-limited once and then successfully returns
`None`, for the C10 witness. -/
def fNoneC10 : Nat → Except PyErr (Option Unit) :=
  fun i => if i = 0 then .error (.mk "rate limit") else .ok none

/-- C10 witness: the sentinel-ambiguity theorem applied to an operation that
successfully returns `None` on its second attempt, against persistent rate
limiting by the error of the C5 witness. -/
theorem retry_none_sentinel_ambiguity_witness :
    (retry_api_call fNoneC10 jitterZeroC3 3 1).result = .value none ∧
    observedValue (retry_api_call fNoneC10 jitterZeroC3 3 1).result = none ∧
    observedValue (retry_api_call
      (fun _ => (.error rlErrC5 : Except PyErr (Option Unit)))
      jitterZeroC3 3 1).result = none ∧
    ((none : Option Unit) = none →
      observedValue (retry_api_call fNoneC10 jitterZeroC3 3 1).result =
      observedValue (retry_api_call
        (fun _ => (.error rlErrC5 : Except PyErr (Option Unit)))
        jitterZeroC3 3 1).result) ∧
    load_applicants_data (fun _ => .error rlErrC5) jitterZeroC3 = ⟨[], []⟩ ∧
    (update_applicant_scores wsCanonical [rowC2] 0 [("Throwing Skill", .num 5)]
      ⟨none, fun _ => some rlErrC5, jitterZeroC3⟩).result = .rateLimitedErr :=
  retry_none_sentinel_ambiguity Unit fNoneC10 jitterZeroC3 1 none rlErrC5
    (by norm_num) (fun i hi => ⟨.mk "rate limit", by interval_cases i; rfl, by decide⟩)
    rfl (by decide)
